import Mathlib

/-!
Verification development for the result-reporting and error-aggregation layer of
the semgrep CLI (files `semgrep/output.py`, `semgrep/semgrep_main.py`,
`semgrep/util.py`).  The Python code is shallowly embedded: pure helpers become
Lean functions, the stateful `OutputHandler` becomes explicit state passing over
an `OutputHandlerState` record, and `raise` becomes an `Except`/`Option Exc`
result.  Definitions follow the source files; pieces of the repository that are
not among the provided sources (constants, the error module, serialization
helpers of `RuleMatch`/`Rule`, the vendored junit library) are modelled from the
specification and marked as such in their doc comments.
-/

namespace Semgrep

/-! ## Constants

`semgrep/constants.py` is not among the provided source files; the values below
are modelled from the spec where the spec pins them down. -/

/-- Modelled from the spec: `CLI_RULE_ID` (semgrep/constants.py, not in the
sources) is "the synthetic CLI-pattern id" given to findings produced by an
ad-hoc command-line pattern; the text and emacs renderers special-case it. -/
def CLI_RULE_ID : String := "-"

/-- Modelled from the spec: `MAX_LINES_FLAG_NAME` (semgrep/constants.py, not in
the sources) is the name of the option controlling the per-finding line limit,
mentioned verbatim inside the truncation marker. -/
def MAX_LINES_FLAG_NAME : String := "--max-lines-per-finding"

/-- Modelled from the spec: `BREAK_LINE_WIDTH` (semgrep/constants.py, not in the
sources) is the fixed display width in which the truncation marker is centered. -/
def BREAK_LINE_WIDTH : Nat := 80

/-- Modelled from the spec: `BREAK_LINE_CHAR` (semgrep/constants.py, not in the
sources) is the fixed fill character of separator and marker lines. -/
def BREAK_LINE_CHAR : Char := '-'

/-- Modelled from the spec: `BREAK_LINE` (semgrep/constants.py, not in the
sources) is the fixed-width separator line, the fill character repeated over the
whole display width. -/
def BREAK_LINE : String := String.mk (List.replicate BREAK_LINE_WIDTH BREAK_LINE_CHAR)

/-- ANSI escape `colorama.Style.RESET_ALL` of the external colorama library. -/
def RESET_ALL : String := "\x1b[0m"

/-- ANSI escape `colorama.Style.BRIGHT` of the external colorama library. -/
def BRIGHT : String := "\x1b[1m"

/-- ANSI escape `colorama.Fore.GREEN` of the external colorama library. -/
def FORE_GREEN : String := "\x1b[32m"

/-- ANSI escape `colorama.Fore.YELLOW` of the external colorama library. -/
def FORE_YELLOW : String := "\x1b[33m"

/-- ANSI escape `colorama.Fore.RED` of the external colorama library. -/
def FORE_RED : String := "\x1b[31m"

/-- ANSI escape `colorama.Fore.BLUE` of the external colorama library. -/
def FORE_BLUE : String := "\x1b[34m"

/-! ## Python string helpers

Semantics of the Python string operations the sources use, over Lean `String`
(Python `str` indexing/slicing is by code point, as is `String.toList`). -/

/-- Python `str.rstrip()`: remove trailing whitespace. -/
def rstrip (s : String) : String :=
  String.mk (s.toList.reverse.dropWhile Char.isWhitespace).reverse

/-- Python `str.strip(chars)`: remove leading and trailing characters
satisfying `p`. -/
def stripChars (p : Char → Bool) (s : String) : String :=
  String.mk (((s.toList.dropWhile p).reverse.dropWhile p).reverse)

/-- Python `str.strip()` (whitespace both ends). -/
def pyStrip (s : String) : String := stripChars Char.isWhitespace s

/-- Does `pat` start the character list `l`? -/
def listStartsWith : List Char → List Char → Bool
  | [], _ => true
  | _ :: _, [] => false
  | p :: ps, c :: cs => p = c && listStartsWith ps cs

/-- The characters after the first occurrence of (non-empty) `pat` in `l`,
`none` when `pat` does not occur. -/
def afterFirst (pat : List Char) : List Char → Option (List Char)
  | [] => none
  | c :: cs =>
    if listStartsWith pat (c :: cs) then some ((c :: cs).drop pat.length)
    else afterFirst pat cs

/-- Split a character list at every character satisfying `p`, keeping empty
pieces — the semantics of `re.split` on a single-character class. -/
def splitCharsAux (p : Char → Bool) : List Char → List Char → List String
  | acc, [] => [String.mk acc.reverse]
  | acc, c :: cs =>
    if p c then String.mk acc.reverse :: splitCharsAux p [] cs
    else splitCharsAux p (c :: acc) cs

/-- Python `str.lower()` (per code point, as the sources use it on ASCII
severity names). -/
def pyToLower (s : String) : String := String.mk (s.toList.map Char.toLower)

/-- Python slice `s[:n]` (by code point). -/
def pyTake (s : String) (n : Nat) : String := String.mk (s.toList.take n)

/-- Python slice `s[n:]` (by code point). -/
def pyDrop (s : String) (n : Nat) : String := String.mk (s.toList.drop n)

/-- Python `str.center(width, fill)`, CPython semantics: with `marg` the total
padding, the left padding is `marg / 2 + (marg &&& width &&& 1)`. -/
def pyCenter (s : String) (width : Nat) (fill : Char) : String :=
  if width ≤ s.toList.length then s
  else
    let marg := width - s.toList.length
    let left := marg / 2 + (marg &&& width &&& 1)
    String.mk (List.replicate left fill) ++ s ++
      String.mk (List.replicate (marg - left) fill)

/-! ## Data model -/

/-- `semgrep.error.Level` (semgrep/error.py, not in the sources).  Modelled from
the spec: a structured error's severity level is `ERROR` or `WARN`. -/
inductive Level where
  | ERROR : Level
  | WARN : Level
deriving DecidableEq

/-- Python `Level.name.lower()`. -/
def Level.lower : Level → String
  | .ERROR => "error"
  | .WARN => "warn"

/-- `semgrep.error.SemgrepError` (semgrep/error.py, not in the sources).
Modelled from the spec: a structured error carries a severity level, a
machine-readable kind discriminator, an exit code, optional human-readable
short/long messages, an optional target path and rule id; equality is
value-based, which underlies deduplication.  `MatchTimeoutError` is the
distinguished timeout subclass (flag `isTimeout`) carrying the target path and
rule id. -/
structure SemgrepError where
  level : Level
  kind : String
  code : Nat
  msg : Option String
  long_msg : Option String
  short_msg : Option String
  path : String
  rule_id : String
  isTimeout : Bool
deriving DecidableEq

/-- Modelled from the spec: `FINDINGS_EXIT_CODE` (semgrep/error.py, not in the
sources), the dedicated exit classification for "findings present and
configured to fail". -/
def FINDINGS_EXIT_CODE : Nat := 1

/-- A Python exception as seen by the output handler: either a structured
`SemgrepError` or an arbitrary other exception. -/
inductive Exc where
  | semgrep : SemgrepError → Exc
  | other : String → Exc
deriving DecidableEq

/-- The `fix_regex` payload of a finding: pattern, replacement, optional
occurrence count (`count` key of the dict; absent means the default `g`). -/
structure FixRegex where
  regex : String
  replacement : String
  count : Option String
deriving DecidableEq

/-- `semgrep.rule_match.RuleMatch` (semgrep/rule_match.py, not in the sources).
Modelled from the spec: one reported match with owning rule id, target path,
severity, 1-based start/end line/column (0 encodes a missing/falsy entry of the
position dict), the literal source lines, an optional fix-applied variant
(`extra["fixed_lines"]`, empty meaning absent, matching Python falsiness), a
message and optional autofix data (`fix`, empty meaning absent). -/
structure RuleMatch where
  id : String
  path : String
  message : String
  severity : String
  startLine : Nat
  startCol : Nat
  endLine : Nat
  endCol : Nat
  lines : List String
  fixedLines : List String
  fix : String
  fix_regex : Option FixRegex
deriving DecidableEq

/-- `semgrep.rule.Rule` (semgrep/rule.py, not in the sources).  Modelled from
the spec: the core only reads the rule's id (plus serialized metadata for
SARIF, modelled in `Rule.to_sarif`). -/
structure Rule where
  id : String
deriving DecidableEq

/-- `semgrep.constants.OutputFormat` (not in the sources); the seven formats
are enumerated by the spec and exhaustively dispatched in
`OutputHandler.build_output`. -/
inductive OutputFormat where
  | TEXT | JSON | JSON_DEBUG | SARIF | JUNIT_XML | EMACS | VIM
deriving DecidableEq

/-- Modelled from the spec: `OutputFormat.is_json` is true exactly for the JSON
payload formats (`json`, `json-debug`), the two routed to the JSON builder by
`build_output`. -/
def OutputFormat.is_json : OutputFormat → Bool
  | .JSON => true
  | .JSON_DEBUG => true
  | _ => false

/-- `OutputSettings` (semgrep/output.py). -/
structure OutputSettings where
  output_format : OutputFormat
  output_destination : Option String
  error_on_findings : Bool
  verbose_errors : Bool
  strict : Bool
  output_per_finding_max_lines_limit : Option Nat
  json_stats : Bool
  json_time : Bool
  timeout_threshold : Nat
deriving DecidableEq

/-! ## Line renderer (`color_line`, `finding_to_line` in semgrep/output.py) -/

/-- `color_line` (semgrep/output.py).  Python slice arithmetic carried out on
Nat (the `max(x - 1, 0)` clamps coincide with truncated subtraction). -/
def color_line (line : String) (line_number start_line start_col end_line end_col : Nat) :
    String :=
  let start_color := if line_number > start_line then 0 else start_col
  let start_color := start_color - 1
  let end_color := if line_number ≥ end_line then end_col else line.toList.length + 1 + 1
  let end_color := end_color - 1
  pyTake line start_color ++ BRIGHT ++
    pyTake (pyDrop line start_color) (end_color + 1 - start_color) ++ RESET_ALL ++
    pyDrop line (end_color + 1)

/-- The effective line set of a finding: the fix-applied lines when present and
non-empty (Python `rule_match.extra.get("fixed_lines") or rule_match.lines`),
else the raw matched lines. -/
def effectiveLines (m : RuleMatch) : List String :=
  if m.fixedLines.isEmpty then m.lines else m.fixedLines

/-- One source line of `finding_to_line`'s loop body: the line is
right-stripped, then prefixed with its (optionally colorized) 1-based line
number when the finding has a known start line. -/
def renderSourceLine (m : RuleMatch) (color_output : Bool) (i : Nat) (line : String) :
    String :=
  let line := rstrip line
  if m.startLine = 0 then line
  else if color_output then
    FORE_GREEN ++ toString (m.startLine + i) ++ RESET_ALL ++ ":" ++
      color_line line (m.startLine + i) m.startLine m.startCol m.endLine m.endCol
  else toString (m.startLine + i) ++ ":" ++ line

/-- The text of the hidden-lines marker before centering (`trimmed_str` in
`finding_to_line`). -/
def trimmed_str (trimmed : Int) : String :=
  " [hid " ++ toString trimmed ++ " additional lines, adjust with " ++
    MAX_LINES_FLAG_NAME ++ "] "

/-- `finding_to_line` (semgrep/output.py), the generator materialized as a
list.  `trimmed` is the Python int `len(lines) - limit` (0 when no truthy limit
is configured); the marker/separator tail is suppressed when the limit is
exactly 1. -/
def finding_to_line (m : RuleMatch) (color_output : Bool) (limit : Option Nat)
    (show_separator : Bool) : List String :=
  if m.path = "" then []
  else
    let lines0 := effectiveLines m
    let trimmed : Int :=
      match limit with
      | some k => if k = 0 then 0 else (lines0.length : Int) - (k : Int)
      | none => 0
    let lines :=
      match limit with
      | some k => if k = 0 then lines0 else lines0.take k
      | none => lines0
    let body := lines.mapIdx (fun i line => renderSourceLine m color_output i line)
    let tail : List String :=
      if limit = some 1 then []
      else if trimmed > 0 then [pyCenter (trimmed_str trimmed) BREAK_LINE_WIDTH BREAK_LINE_CHAR]
      else if show_separator then [BREAK_LINE] else []
    body ++ tail

/-! ## Suppression filter (`rule_match_nosem` in semgrep/semgrep_main.py) -/

/-- Modelled from the spec: `NOSEM_INLINE_RE` (semgrep/constants.py, not in the
sources).  The spec says the filter scans the first displayed line for an
inline suppression annotation carrying an optional comma-separated identifier
list.  We model the scan as: the annotation is present when the token
`" nosem"` occurs in the line; when the first occurrence is immediately
followed by a colon, everything after that colon is the captured identifier
list (`ids` group), otherwise no identifier list is carried.  `none` means no
annotation, `some none` a bare annotation, `some (some s)` an annotation with
identifier-list text `s`. -/
def nosemScan (line : String) : Option (Option String) :=
  match afterFirst " nosem:".toList line.toList with
  | some rest => some (some (String.mk rest))
  | none =>
    match afterFirst " nosem".toList line.toList with
    | some _ => some none
    | none => none

/-- Modelled from the spec: `COMMA_SEPARATED_LIST_RE` (semgrep/constants.py,
not in the sources) splits the identifier list at every comma or whitespace
character. -/
def splitCommaWs (s : String) : List String :=
  splitCharsAux (fun c => c = ',' || c.isWhitespace) [] s.toList

/-- One character of the class `[\w\-\.]` used by `rule_match_nosem`'s filter
(ASCII reading of Python `\w`): letters, digits, underscore, dash, period. -/
def isIdChar (c : Char) : Bool :=
  c.isAlpha || c.isDigit || c = '_' || c = '-' || c = '.'

/-- The `pattern_ids` set of `rule_match_nosem` (semgrep/semgrep_main.py):
split the captured identifier list on commas/whitespace, drop blank tokens,
strip whitespace then surrounding quotes from each token, deduplicate (Python
set, modelled as first-occurrence order), then keep only tokens made purely of
`[\w\-\.]` characters (discarding trailing comment-closing artifacts). -/
def parse_pattern_ids (ids_str : String) : List String :=
  let stripped := (splitCommaWs ids_str).filterMap (fun p =>
    if pyStrip p = "" then none
    else some (stripChars (fun c => c = '"' || c = '\x27') (pyStrip p)))
  (stripped.eraseDups).filter (fun x => x.toList.all isIdChar)

/-- The identifier loop of `rule_match_nosem` (semgrep/semgrep_main.py): walk
the listed identifiers with accumulator `result`; a matching identifier sets
the accumulator, a non-matching one raises immediately in strict mode and is
ignored otherwise. -/
def rule_match_nosem_ids (rid : String) (strict : Bool) :
    List String → Bool → Except String Bool
  | [], result => .ok result
  | pid :: rest, result =>
    if rid = pid then rule_match_nosem_ids rid strict rest (result || true)
    else if strict then
      .error ("found \x27nosem\x27 comment with id \x27" ++ pid ++
        "\x27, but no corresponding rule trying \x27" ++ rid ++ "\x27")
    else rule_match_nosem_ids rid strict rest result

/-- `rule_match_nosem` (semgrep/semgrep_main.py): no displayed line means not
suppressed; a bare annotation on the first line suppresses unconditionally; an
annotation with identifiers suppresses when a listed identifier matches the
finding's rule id, raising in strict mode on any non-matching identifier. -/
def rule_match_nosem (m : RuleMatch) (strict : Bool) : Except String Bool :=
  match m.lines with
  | [] => .ok false
  | first :: _ =>
    match nosemScan first with
    | none => .ok false
    | some none => .ok true
    | some (some ids_str) =>
      rule_match_nosem_ids m.id strict (parse_pattern_ids ids_str) false

/-! ## Format renderers (semgrep/output.py) -/

/-- The `(path, id)` strict lexicographic order used as Python sort key
`lambda r: (r.path, r.id)`. -/
def matchKeyLT (a b : RuleMatch) : Prop :=
  a.path < b.path ∨ (a.path = b.path ∧ a.id < b.id)

instance (a b : RuleMatch) : Decidable (matchKeyLT a b) := by
  unfold matchKeyLT; infer_instance

/-- Stable insertion of a later element after all earlier key-equal ones. -/
def insertSorted (x : RuleMatch) : List RuleMatch → List RuleMatch
  | [] => [x]
  | y :: ys => if matchKeyLT x y then x :: y :: ys else y :: insertSorted x ys

/-- Python `sorted(rule_matches, key=lambda r: (r.path, r.id))` (a stable sort
on the `(path, rule id)` key). -/
def sortMatches (l : List RuleMatch) : List RuleMatch :=
  l.foldl (fun acc x => insertSorted x acc) []

/-- The colorized `severity:` prefix of a text-format header line
(`severity_prepend` in `build_normal_output`); `sev` is the already-lowercased
severity. -/
def severity_prepend (color : Bool) (sev : String) : String :=
  if sev = "" then ""
  else if sev = "error" then (if color then FORE_RED else "") ++ "severity:" ++ sev ++ " "
  else if sev = "warning" then (if color then FORE_YELLOW else "") ++ "severity:" ++ sev ++ " "
  else "severity:" ++ sev ++ " "

/-- The lines `build_normal_output` emits for one finding, grouped: the
file-change header lines, the optional rule/message header line, the body from
`finding_to_line`, and the optional autofix line. -/
structure NormalEntry where
  fileHeader : List String
  ruleHeader : Option String
  body : List String
  autofix : Option String
deriving DecidableEq

/-- The loop of `build_normal_output` (semgrep/output.py) over the sorted
matches, carrying `last_file` and `last_message`: a path change emits a blank
line (except before the first file) and a path header and resets
`last_message`; the rule/message header is emitted when the rule id is
non-empty, not the synthetic CLI id, and the message differs from the previous
finding's; the body is rendered by `finding_to_line` with the separator flag
set when the next sorted finding shares the path. -/
def normalGo (color : Bool) (limit : Option Nat) :
    Option String → Option String → List RuleMatch → List NormalEntry
  | _, _, [] => []
  | lastFile, lastMessage, m :: rest =>
    let newFile := lastFile ≠ some m.path
    let fileHeader : List String :=
      if newFile then
        (if lastFile.isSome then [""] else []) ++
          [(if color then FORE_GREEN else "") ++ m.path ++ (if color then RESET_ALL else "")]
      else []
    let lastMessage1 := if newFile then none else lastMessage
    let ruleHeader : Option String :=
      if m.id ≠ "" ∧ m.id ≠ CLI_RULE_ID ∧ lastMessage1 ≠ some m.message then
        some (severity_prepend color (pyToLower m.severity) ++
          (if color then FORE_YELLOW else "") ++ "rule:" ++ m.id ++ ": " ++ m.message ++
          (if color then RESET_ALL else ""))
      else none
    let isSameFile := match rest with
      | n :: _ => decide (n.path = m.path)
      | [] => false
    let body := finding_to_line m color limit isSameFile
    let autofix : Option String :=
      if m.fix ≠ "" then
        some ((if color then FORE_BLUE else "") ++ "autofix:" ++
          (if color then RESET_ALL else "") ++ " " ++ m.fix)
      else
        match m.fix_regex with
        | some fr =>
          some ((if color then FORE_BLUE else "") ++ "autofix:" ++
            (if color then RESET_ALL else "") ++ " s/" ++ fr.regex ++ "/" ++
            fr.replacement ++ "/" ++ fr.count.getD "g")
        | none => none
    ⟨fileHeader, ruleHeader, body, autofix⟩ ::
      normalGo color limit (some m.path) (some m.message) rest

/-- Flatten one `NormalEntry` back into the emitted line sequence. -/
def entryLines (e : NormalEntry) : List String :=
  e.fileHeader ++ e.ruleHeader.toList ++ e.body ++ e.autofix.toList

/-- `build_normal_output` (semgrep/output.py), the generator materialized. -/
def build_normal_output (rule_matches : List RuleMatch) (color : Bool)
    (limit : Option Nat) : List String :=
  (normalGo color limit none none (sortMatches rule_matches)).flatMap entryLines

/-- JSON string literal (escaping of special characters elided in the model). -/
def jsonStr (s : String) : String := "\"" ++ s ++ "\""

/-- JSON array with `json.dumps`'s default `", "` separator. -/
def jsonList (xs : List String) : String :=
  "[" ++ String.intercalate ", " xs ++ "]"

/-- Modelled from the spec: `RuleMatch.to_json` (semgrep/rule_match.py, not in
the sources) serializes one finding "in its canonical serialized form" for the
`results` array. -/
def RuleMatch.to_json (m : RuleMatch) : String :=
  "\x7b\"check_id\": " ++ jsonStr m.id ++ ", \"path\": " ++ jsonStr m.path ++
    ", \"start\": \x7b\"line\": " ++ toString m.startLine ++ ", \"col\": " ++
    toString m.startCol ++ "\x7d, \"end\": \x7b\"line\": " ++ toString m.endLine ++
    ", \"col\": " ++ toString m.endCol ++ "\x7d, \"extra\": \x7b\"message\": " ++
    jsonStr m.message ++ ", \"severity\": " ++ jsonStr m.severity ++ "\x7d\x7d"

/-- Modelled from the spec: `SemgrepError.to_dict` (semgrep/error.py, not in
the sources) serializes a structured error with its kind discriminator
(`type`), level name and messages; absent optional messages are omitted, which
`_sarif_notification_from_error` observes through `dict.get`. -/
def SemgrepError.to_dict_json (e : SemgrepError) : String :=
  "\x7b\"type\": " ++ jsonStr e.kind ++ ", \"level\": " ++ jsonStr e.level.lower ++
    (match e.msg with | some s => ", \"message\": " ++ jsonStr s | none => "") ++
    (match e.long_msg with | some s => ", \"long_msg\": " ++ jsonStr s | none => "") ++
    (match e.short_msg with | some s => ", \"short_msg\": " ++ jsonStr s | none => "") ++
    "\x7d"

/-- Modelled from the spec: `make_target_stats` (semgrep/stats.py, not in the
sources) summarizes the scanned targets for the JSON `stats` payload. -/
def make_target_stats (targets : List String) : String :=
  jsonList (targets.map jsonStr)

/-- Modelled from the spec: `make_loc_stats` (semgrep/stats.py, not in the
sources) summarizes lines-of-code counts for the JSON `stats` payload; file
contents are outside this layer, so the model reports the target names. -/
def make_loc_stats (targets : List String) : String :=
  jsonList (targets.map jsonStr)

/-- `_build_time_target_json` (semgrep/output.py): per-target match times
indexed positionally against the rules array, defaulting to 0 (Python `0.0`;
durations are modelled as integral tick counts, floating point being outside
the model) when no timing was recorded for a (rule, target) pair. -/
def build_time_target_json (rules : List Rule) (target : String)
    (match_time_matrix : List ((String × String) × Nat)) : String :=
  "\x7b\"path\": " ++ jsonStr target ++ ", \"match_times\": " ++
    jsonList (rules.map (fun r =>
      toString ((match_time_matrix.lookup (r.id, target)).getD 0))) ++ "\x7d"

/-- `_build_time_json` (semgrep/output.py). -/
def build_time_json (rules : List Rule) (targets : List String)
    (match_time_matrix : List ((String × String) × Nat)) : String :=
  "\x7b\"rules\": " ++
    jsonList (rules.map (fun r => "\x7b\"id\": " ++ jsonStr r.id ++ "\x7d")) ++
    ", \"targets\": " ++
    jsonList (targets.map (fun t => build_time_target_json rules t match_time_matrix)) ++
    "\x7d"

/-- `build_output_json` (semgrep/output.py): top-level object with `results`,
optional `debug` (only when a non-empty debug-steps dict was passed, i.e. for
the json-debug format), `errors`, optional `stats` and optional `time`, in
insertion order as serialized by `json.dumps`.  The profiler handle is
modelled as the string its `dump_stats` returns. -/
def build_output_json (rule_matches : List RuleMatch)
    (semgrep_structured_errors : List SemgrepError) (all_targets : List String)
    (show_json_stats report_time : Bool) (filtered_rules : List Rule)
    (match_time_matrix : List ((String × String) × Nat)) (profiler : Option String)
    (debug_steps_by_rule : Option (List (Rule × List String))) : String :=
  "\x7b\"results\": " ++ jsonList (rule_matches.map RuleMatch.to_json) ++
    (match debug_steps_by_rule with
     | some d =>
       if d.isEmpty then ""
       else ", \"debug\": [\x7b" ++
         String.intercalate ", " (d.map (fun p => jsonStr p.1.id ++ ": " ++ jsonList p.2)) ++
         "\x7d]"
     | none => "") ++
    ", \"errors\": " ++ jsonList (semgrep_structured_errors.map SemgrepError.to_dict_json) ++
    (if show_json_stats then
      ", \"stats\": \x7b\"targets\": " ++ make_target_stats all_targets ++
        ", \"loc\": " ++ make_loc_stats all_targets ++ ", \"profiler\": " ++
        (match profiler with | some p => jsonStr p | none => "null") ++ "\x7d"
     else "") ++
    (if report_time then
      ", \"time\": " ++ build_time_json filtered_rules all_targets match_time_matrix
     else "") ++
    "\x7d"

/-- `build_junit_xml_output` (semgrep/output.py).  Modelled from the spec where
it leans on the vendored `junit_xml` library (not in the sources): one test
case per finding, wrapped in a single suite named "semgrep results". -/
def build_junit_xml_output (rule_matches : List RuleMatch) : String :=
  "<testsuite name=\"semgrep results\">" ++
    String.join (rule_matches.map (fun m =>
      "<testcase name=" ++ jsonStr m.id ++ " file=" ++ jsonStr m.path ++ "/>")) ++
    "</testsuite>"

/-- Modelled from the spec: `Rule.to_sarif` (semgrep/rule.py, not in the
sources): one SARIF rule entry per distinct rule. -/
def Rule.to_sarif (r : Rule) : String :=
  "\x7b\"id\": " ++ jsonStr r.id ++ "\x7d"

/-- Modelled from the spec: `RuleMatch.to_sarif` (semgrep/rule_match.py, not in
the sources): one SARIF result per finding. -/
def RuleMatch.to_sarif (m : RuleMatch) : String :=
  "\x7b\"ruleId\": " ++ jsonStr m.id ++ ", \"message\": \x7b\"text\": " ++
    jsonStr m.message ++ "\x7d\x7d"

/-- `_sarif_tool_info` (semgrep/output.py); the package version is external
(`semgrep.__VERSION__`). -/
def sarif_tool_info (version : String) : String :=
  "\x7b\"name\": \"semgrep\", \"semanticVersion\": " ++ jsonStr version ++ "\x7d"

/-- `_sarif_notification_from_error` (semgrep/output.py): level mapped
ERROR→"error" / WARN→"warning"; message text preferring `message`, then
`long_msg`, then `short_msg`, else empty. -/
def sarif_notification_from_error (e : SemgrepError) : String :=
  let level := match e.level with
    | .ERROR => "error"
    | .WARN => "warning"
  let message := match e.msg with
    | some s => s
    | none => match e.long_msg with
      | some s => s
      | none => e.short_msg.getD ""
  "\x7b\"descriptor\": \x7b\"id\": " ++ jsonStr e.kind ++ "\x7d, \"message\": \x7b\"text\": " ++
    jsonStr message ++ "\x7d, \"level\": " ++ jsonStr level ++ "\x7d"

/-- `build_sarif_output` (semgrep/output.py); the overall JSON assembly keeps
`json.dumps`'s key order. -/
def build_sarif_output (rule_matches : List RuleMatch) (rules : List Rule)
    (semgrep_structured_errors : List SemgrepError) (version : String) : String :=
  "\x7b\"$schema\": \"https://raw.githubusercontent.com/oasis-tcs/sarif-spec/master/Schemata/sarif-schema-2.1.0.json\", " ++
    "\"version\": \"2.1.0\", \"runs\": [\x7b\"tool\": \x7b\"driver\": " ++
    sarif_tool_info version ++ ", \"rules\": " ++ jsonList (rules.map Rule.to_sarif) ++
    "\x7d, \"results\": " ++ jsonList (rule_matches.map RuleMatch.to_sarif) ++
    ", \"invocations\": [\x7b\"toolExecutionNotifications\": " ++
    jsonList (semgrep_structured_errors.map sarif_notification_from_error) ++
    "\x7d]\x7d]\x7d"

/-- `iter_emacs_output` (semgrep/output.py): per finding (sorted by (path,
rule id)) `path:line:col:severity(shortRuleId):firstSourceLine`, the short rule
id being the last dot-separated component, omitted for the synthetic CLI id.
Python would raise `IndexError` on a finding with no lines; the model renders
the empty string there (the driver only emits findings with line content). -/
def iter_emacs_output (rule_matches : List RuleMatch) : List String :=
  (sortMatches rule_matches).map (fun m =>
    let info :=
      if m.id ≠ "" ∧ m.id ≠ CLI_RULE_ID then
        "(" ++ ((splitCharsAux (fun c => c = '.') [] m.id.toList).getLastD "") ++ ")"
      else ""
    m.path ++ ":" ++ toString m.startLine ++ ":" ++ toString m.startCol ++ ":" ++
      pyToLower m.severity ++ info ++ ":" ++ rstrip ((m.lines.headD "")))

/-- `build_emacs_output` (semgrep/output.py). -/
def build_emacs_output (rule_matches : List RuleMatch) : String :=
  String.intercalate "\n" (iter_emacs_output rule_matches)

/-- The severity-code table of `build_vim_output`; Python raises `KeyError`
outside the three enumerated severities, the model maps them to "" (the spec
enumerates severity as info/warning/error only). -/
def vimSeverity (s : String) : String :=
  if s = "INFO" then "I" else if s = "WARNING" then "W"
  else if s = "ERROR" then "E" else ""

/-- `build_vim_output` (semgrep/output.py): findings in ingestion order,
`path:line:col:severityCode:ruleId:message`. -/
def build_vim_output (rule_matches : List RuleMatch) : String :=
  String.intercalate "\n" (rule_matches.map (fun m =>
    String.intercalate ":" [m.path, toString m.startLine, toString m.startCol,
      vimSeverity m.severity, m.id, m.message]))

/-! ## Result aggregator / lifecycle controller (`OutputHandler`) -/

/-- The mutable accumulation fields of `OutputHandler.__init__`
(semgrep/output.py).  Python sets are modelled as lists in first-insertion
order (`error_set`, with `rules` a duplicate-free union), dicts as association
lists; the profiler handle is modelled by its `dump_stats` string. -/
structure OutputHandlerState where
  rule_matches : List RuleMatch
  debug_steps_by_rule : List (Rule × List String)
  stats_line : Option String
  all_targets : List String
  profiler : Option String
  rules : List Rule
  semgrep_structured_errors : List SemgrepError
  error_set : List SemgrepError
  has_output : Bool
  filtered_rules : List Rule
  match_time_matrix : List ((String × String) × Nat)
  final_error : Option Exc
deriving DecidableEq

/-- The freshly constructed handler state. -/
def initState : OutputHandlerState :=
  ⟨[], [], none, [], none, [], [], [], false, [], [], none⟩

/-- `OutputHandler.handle_semgrep_error` (semgrep/output.py): mark that there
is output, then add the error to the accumulated list and set only when no
value-equal error is present (the immediate text-mode logging side effect is
not part of the accumulated state). -/
def handle_semgrep_error (st : OutputHandlerState) (e : SemgrepError) :
    OutputHandlerState :=
  let st := { st with has_output := true }
  if e ∈ st.error_set then st
  else { st with
    semgrep_structured_errors := st.semgrep_structured_errors ++ [e]
    error_set := st.error_set ++ [e] }

/-- The loop of `OutputHandler.handle_semgrep_errors` (semgrep/output.py):
a timeout error not yet present is appended to the list and set (and recorded
in the local per-path grouping, tracked here as the flag that the grouping is
non-empty); every other error goes through `handle_semgrep_error`. -/
def handle_semgrep_errors_go :
    OutputHandlerState → Bool → List SemgrepError → OutputHandlerState × Bool
  | st, flag, [] => (st, flag)
  | st, flag, e :: rest =>
    if e.isTimeout = true ∧ e ∉ st.error_set then
      handle_semgrep_errors_go
        { st with
          semgrep_structured_errors := st.semgrep_structured_errors ++ [e]
          error_set := st.error_set ++ [e] }
        true rest
    else handle_semgrep_errors_go (handle_semgrep_error st e) flag rest

/-- `OutputHandler.handle_semgrep_errors` (semgrep/output.py): after the loop,
when new timeout errors were grouped and the active format is plain text,
`handle_semgrep_timeout_errors` emits the aggregate warning (a logging side
effect) and marks that there is output. -/
def handle_semgrep_errors (settings : OutputSettings) (st : OutputHandlerState)
    (errors : List SemgrepError) : OutputHandlerState :=
  let p := handle_semgrep_errors_go st false errors
  if p.2 = true ∧ settings.output_format = OutputFormat.TEXT then
    { p.1 with has_output := true }
  else p.1

/-- Duplicate-free union modelling `frozenset.union` (new keys appended in
order). -/
def unionRules (old : List Rule) (new : List Rule) : List Rule :=
  old ++ (new.filter (fun r => r ∉ old)).eraseDups

/-- Python `dict.update`: replace the values of existing keys, append the new
keys in order. -/
def dictUpdate (old new : List (Rule × List String)) : List (Rule × List String) :=
  (old.map (fun p => match new.lookup p.1 with
    | some v => (p.1, v)
    | none => p)) ++ new.filter (fun p => (old.lookup p.1).isNone)

/-- `OutputHandler.handle_semgrep_core_output` (semgrep/output.py): one engine
run's results are merged in — rules unioned, findings appended, stats/profiler/
targets/match-time matrix replaced, debug steps merged by rule. -/
def handle_semgrep_core_output (st : OutputHandlerState)
    (rule_matches_by_rule : List (Rule × List RuleMatch))
    (debug_steps_by_rule : List (Rule × List String)) (stats_line : String)
    (all_targets : List String) (profiler : String) (filtered_rules : List Rule)
    (match_time_matrix : List ((String × String) × Nat)) : OutputHandlerState :=
  { st with
    has_output := true
    rules := unionRules st.rules (rule_matches_by_rule.map (·.1))
    rule_matches := st.rule_matches ++ rule_matches_by_rule.flatMap (·.2)
    profiler := some profiler
    all_targets := all_targets
    stats_line := some stats_line
    debug_steps_by_rule := dictUpdate st.debug_steps_by_rule debug_steps_by_rule
    filtered_rules := filtered_rules
    match_time_matrix := match_time_matrix }

/-- `OutputHandler.handle_unhandled_exception` (semgrep/output.py): a
structured error is also accumulated via `handle_semgrep_error`; either way the
exception is remembered as the final terminal cause. -/
def handle_unhandled_exception (st : OutputHandlerState) (ex : Exc) :
    OutputHandlerState :=
  match ex with
  | .semgrep e => { handle_semgrep_error st e with final_error := some ex }
  | .other _ => { st with final_error := some ex }

/-- The synthetic terminal cause `SemgrepError("", code=FINDINGS_EXIT_CODE)`
built by `OutputHandler.close`; constructor defaults (level ERROR, generic
kind) are modelled from the spec, `error.py` being outside the sources. -/
def findingsError : SemgrepError :=
  ⟨Level.ERROR, "SemgrepError", FINDINGS_EXIT_CODE, some "", none, none, "", "", false⟩

/-- The outcome-determination block of `OutputHandler.close`
(semgrep/output.py): in priority order a previously recorded terminal cause,
then the synthetic findings cause, then the most recently accumulated
structured error paired with the "N files could not be analyzed" summary. -/
def determine_final (settings : OutputSettings) (st : OutputHandlerState) :
    Option Exc × Option String :=
  match st.final_error with
  | some e => (some e, none)
  | none =>
    if ¬ st.rule_matches.isEmpty ∧ settings.error_on_findings = true then
      (some (Exc.semgrep findingsError), none)
    else
      match st.semgrep_structured_errors.getLast? with
      | some e =>
        (some (Exc.semgrep e),
          some (toString st.semgrep_structured_errors.length ++
            " files could not be analyzed"))
      | none => (none, none)

/-- The hint `final_raise` logs for an unraised WARN-level cause; Python
formats the (possibly `None`) `error_stats` into the message. -/
def warnHint (error_stats : Option String) : String :=
  error_stats.getD "None" ++
    "; run with --verbose for details or run with --strict to exit non-zero if any file cannot be analyzed"

/-- `OutputHandler.final_raise` (semgrep/output.py), returning what is raised
and what hint is logged: nothing for no cause; a structured ERROR-level cause
is raised, a WARN-level one only under strict mode and otherwise turned into a
logged hint; any non-structured cause is raised. -/
def final_raise (settings : OutputSettings) (ex : Option Exc)
    (error_stats : Option String) : Option Exc × Option String :=
  match ex with
  | none => (none, none)
  | some (Exc.semgrep e) =>
    if e.level = Level.ERROR then (some (Exc.semgrep e), none)
    else if settings.strict = true then (some (Exc.semgrep e), none)
    else (none, some (warnHint error_stats))
  | some (Exc.other s) => (some (Exc.other s), none)

/-- `OutputHandler.build_output` (semgrep/output.py): dispatch on the output
format; the debug steps are passed only for the json-debug format.  `version`
stands for the external `semgrep.__VERSION__`. -/
def build_output (settings : OutputSettings) (st : OutputHandlerState)
    (color_output : Bool) (limit : Option Nat) (version : String) : String :=
  match settings.output_format with
  | .JSON =>
    build_output_json st.rule_matches st.semgrep_structured_errors st.all_targets
      settings.json_stats settings.json_time st.filtered_rules st.match_time_matrix
      st.profiler none
  | .JSON_DEBUG =>
    build_output_json st.rule_matches st.semgrep_structured_errors st.all_targets
      settings.json_stats settings.json_time st.filtered_rules st.match_time_matrix
      st.profiler (some st.debug_steps_by_rule)
  | .JUNIT_XML => build_junit_xml_output st.rule_matches
  | .SARIF =>
    build_sarif_output st.rule_matches st.rules st.semgrep_structured_errors version
  | .EMACS => build_emacs_output st.rule_matches
  | .VIM => build_vim_output st.rule_matches
  | .TEXT =>
    String.intercalate "\n" (build_normal_output st.rule_matches color_output limit)

/-- `build_output` as the Python method reads: it consumes the handler state
and returns the rendered string together with the state the method leaves
behind — the body assigns to no handler field, so the state passes through
untouched. -/
def build_output_st (settings : OutputSettings) (st : OutputHandlerState)
    (color_output : Bool) (limit : Option Nat) (version : String) :
    String × OutputHandlerState :=
  (build_output settings st color_output limit version, st)

/-- The observable effects of `OutputHandler.close` (semgrep/output.py):
whether a renderer was invoked and what it produced, what was printed to the
handler's stdout, the logged stats line, the (destination, content) pair handed
to `save_output`, and what `final_raise` raised and hinted. -/
structure CloseResult where
  rendered : Option String
  printed : Option String
  statsLogged : Option String
  saved : Option (String × String)
  raised : Option Exc
  hint : Option String
deriving DecidableEq

/-- `OutputHandler.close` (semgrep/output.py).  When anything was accumulated
(`has_output`) the report is rendered — colorized only when no destination is
configured and stdout is a tty — printed to stdout when non-empty, the stats
line logged when present, and the output handed to `save_output` when a truthy
destination is configured.  Then the final outcome is determined and
dispositioned by `final_raise`. -/
def close (settings : OutputSettings) (st : OutputHandlerState) (isatty : Bool)
    (version : String) : CloseResult :=
  let renderedOpt : Option String :=
    if st.has_output then
      some (build_output settings st (settings.output_destination.isNone && isatty)
        settings.output_per_finding_max_lines_limit version)
    else none
  let printed : Option String :=
    match renderedOpt with
    | some o => if o ≠ "" then some o else none
    | none => none
  let statsLogged : Option String :=
    if st.has_output then
      match st.stats_line with
      | some s => if s ≠ "" then some s else none
      | none => none
    else none
  let saved : Option (String × String) :=
    match renderedOpt, settings.output_destination with
    | some o, some d => if d ≠ "" then some (d, o) else none
    | _, _ => none
  let fe := determine_final settings st
  let r := final_raise settings fe.1 fe.2
  ⟨renderedOpt, printed, statsLogged, saved, r.1, r.2⟩

/-! ## Invariants and concrete sample data -/

/-- The deduplication invariant of the aggregator: the membership set mirrors
the accumulated error list, and the list holds no two value-equal errors. -/
def errorInv (st : OutputHandlerState) : Prop :=
  st.error_set = st.semgrep_structured_errors ∧ st.semgrep_structured_errors.Nodup

/-- Plain text settings: text format, no destination, nothing strict. -/
def sampleTextSettings : OutputSettings :=
  ⟨OutputFormat.TEXT, none, false, false, false, none, false, false, 0⟩

/-- JSON settings with a configured output destination. -/
def sampleJsonDestSettings : OutputSettings :=
  ⟨OutputFormat.JSON, some "findings.json", false, false, false, none, false, false, 0⟩

/-- A handler state into which an (empty) engine run was accumulated. -/
def sampleStateOut : OutputHandlerState :=
  { initState with has_output := true }

/-- A WARN-level structured parse error. -/
def sampleWarnError : SemgrepError :=
  ⟨Level.WARN, "SourceParseError", 2, none, some "parse failure", none, "a.py", "", false⟩

/-- An ERROR-level structured config error. -/
def sampleConfigError : SemgrepError :=
  ⟨Level.ERROR, "SemgrepError", 2, some "bad config", none, none, "", "", false⟩

/-- A handler state with two accumulated structured errors. -/
def sampleErrState : OutputHandlerState :=
  { initState with
    has_output := true
    semgrep_structured_errors := [sampleWarnError, sampleConfigError]
    error_set := [sampleWarnError, sampleConfigError] }

/-- A finding whose first line carries a suppression annotation listing its own
rule id. -/
def sampleNosemMatch : RuleMatch :=
  ⟨"mine", "a.py", "msg", "ERROR", 3, 1, 3, 5, ["x == y  # nosem: mine"], [], "", none⟩

/-- A finding whose first line carries a suppression annotation listing its own
rule id and one further, non-matching id. -/
def sampleStrictNosemMatch : RuleMatch :=
  ⟨"mine", "a.py", "msg", "ERROR", 3, 1, 3, 5, ["x == y  # nosem: mine, other"], [], "", none⟩

/-- A three-line finding for exercising truncation with a two-line limit. -/
def sampleTruncMatch : RuleMatch :=
  ⟨"rule-a", "a.py", "msg", "ERROR", 3, 1, 5, 2, ["l1  ", "l2", "l3"], [], "", none⟩

/-- First of two same-path, same-message findings with different rule ids. -/
def sampleHeaderMatchA : RuleMatch :=
  ⟨"rule-a", "a.py", "msg", "ERROR", 3, 1, 3, 5, ["x == y"], [], "", none⟩

/-- Second of two same-path, same-message findings with different rule ids. -/
def sampleHeaderMatchB : RuleMatch :=
  ⟨"rule-b", "a.py", "msg", "WARNING", 7, 1, 7, 5, ["z == w"], [], "", none⟩

/-! ## Suppression-filter lemmas -/

/-- With strict mode off the identifier loop never raises and ends up true
exactly when some listed identifier equals the rule id. -/
theorem nosem_ids_nonstrict (rid : String) (ids : List String) (b : Bool) :
    rule_match_nosem_ids rid false ids b = .ok (b || decide (rid ∈ ids)) := by
  induction ids generalizing b with
  | nil => simp [rule_match_nosem_ids]
  | cons pid rest ih =>
    by_cases h : rid = pid
    · subst h
      simp [rule_match_nosem_ids, ih]
    · simp [rule_match_nosem_ids, h, ih]

/-- With strict mode on, any listed identifier different from the rule id makes
the identifier loop raise, whatever else the list contains. -/
theorem nosem_ids_strict_raises (rid : String) (ids : List String) (b : Bool)
    (h : ∃ pid ∈ ids, pid ≠ rid) :
    ∃ msg, rule_match_nosem_ids rid true ids b = .error msg := by
  induction ids generalizing b with
  | nil => simp at h
  | cons pid rest ih =>
    by_cases hp : rid = pid
    · subst hp
      obtain ⟨q, hq, hne⟩ := h
      rcases List.mem_cons.mp hq with hq1 | hq2
      · exact absurd hq1 hne
      · obtain ⟨msg, hmsg⟩ := ih (b || true) ⟨q, hq2, hne⟩
        exact ⟨msg, by simpa [rule_match_nosem_ids] using hmsg⟩
    · refine ⟨"found \x27nosem\x27 comment with id \x27" ++ pid ++
        "\x27, but no corresponding rule trying \x27" ++ rid ++ "\x27", ?_⟩
      simp [rule_match_nosem_ids, hp]

/-- When every listed identifier equals the rule id the loop never raises (in
either mode) and returns whether the list is non-empty. -/
theorem nosem_ids_all_match (rid : String) (strict : Bool) (ids : List String) (b : Bool)
    (h : ∀ pid ∈ ids, pid = rid) :
    rule_match_nosem_ids rid strict ids b = .ok (b || decide (rid ∈ ids)) := by
  induction ids generalizing b with
  | nil => simp [rule_match_nosem_ids]
  | cons pid rest ih =>
    have hp : rid = pid := (h pid (List.mem_cons_self pid rest)).symm
    have step := ih (b || true) (fun q hq => h q (List.mem_cons_of_mem pid hq))
    simp only [rule_match_nosem_ids, if_pos hp]
    rw [step]
    simp [hp]

/-- C2: for every finding, the suppression check returns false when the
finding has no source lines; returns true for a bare first-line annotation
regardless of rule id; with an identifier list under non-strict mode it
returns true exactly when some listed (parsed and filtered) identifier equals
the finding's rule id, ignoring non-matching identifiers; under strict mode a
non-matching listed identifier makes it raise a fatal error, and with only
matching identifiers it returns whether the list is non-empty. -/
theorem nosem_suppression_spec (m : RuleMatch) (strict : Bool) :
    (m.lines = [] → rule_match_nosem m strict = .ok false)
    ∧ (∀ first rest, m.lines = first :: rest → nosemScan first = some none →
        rule_match_nosem m strict = .ok true)
    ∧ (∀ first rest s, m.lines = first :: rest → nosemScan first = some (some s) →
        strict = false →
        rule_match_nosem m strict = .ok (decide (m.id ∈ parse_pattern_ids s)))
    ∧ (∀ first rest s, m.lines = first :: rest → nosemScan first = some (some s) →
        strict = true →
        ((∃ pid ∈ parse_pattern_ids s, pid ≠ m.id) →
          ∃ msg, rule_match_nosem m strict = .error msg)
        ∧ ((∀ pid ∈ parse_pattern_ids s, pid = m.id) →
          rule_match_nosem m strict = .ok (decide (m.id ∈ parse_pattern_ids s)))) := by
  refine ⟨?_, ?_, ?_, ?_⟩
  · intro h
    simp [rule_match_nosem, h]
  · intro first rest h hscan
    simp [rule_match_nosem, h, hscan]
  · intro first rest s h hscan hstrict
    subst hstrict
    simpa [rule_match_nosem, h, hscan] using
      nosem_ids_nonstrict m.id (parse_pattern_ids s) false
  · intro first rest s h hscan hstrict
    subst hstrict
    constructor
    · intro hmis
      obtain ⟨msg, hmsg⟩ := nosem_ids_strict_raises m.id (parse_pattern_ids s) false hmis
      exact ⟨msg, by simpa [rule_match_nosem, h, hscan] using hmsg⟩
    · intro hall
      simpa [rule_match_nosem, h, hscan] using
        nosem_ids_all_match m.id true (parse_pattern_ids s) false hall

/-- Witness for C2: a finding whose first line reads
`x == y  # nosem: mine` and whose rule id is `mine` is suppressed in
non-strict mode. -/
theorem nosem_suppression_spec_witness :
    rule_match_nosem sampleNosemMatch false = .ok true := by
  have h := (nosem_suppression_spec sampleNosemMatch false).2.2.1
    "x == y  # nosem: mine" [] " mine" rfl rfl rfl
  rw [h]
  rfl

/-- C10: in strict mode, a first-line suppression annotation listing any
filtered identifier different from the finding's rule id makes the check raise
— even when the finding's own rule id is also listed — so the finding is never
reported as suppressed. -/
theorem strict_nosem_raises (m : RuleMatch) (first : String) (rest : List String)
    (s : String) (h1 : m.lines = first :: rest) (h2 : nosemScan first = some (some s))
    (h3 : ∃ pid ∈ parse_pattern_ids s, pid ≠ m.id) :
    (∃ msg, rule_match_nosem m true = .error msg)
    ∧ rule_match_nosem m true ≠ .ok true := by
  obtain ⟨msg, hmsg⟩ := nosem_ids_strict_raises m.id (parse_pattern_ids s) false h3
  have hres : rule_match_nosem m true = .error msg := by
    simpa [rule_match_nosem, h1, h2] using hmsg
  exact ⟨⟨msg, hres⟩, by simp [hres]⟩

/-! ## Line-renderer lemmas -/

/-- Shape of `finding_to_line` under a truthy line limit: the truncated,
rendered source lines followed by the marker/separator tail. -/
theorem finding_to_line_some (m : RuleMatch) (c sep : Bool) (k : Nat)
    (hpath : m.path ≠ "") (hk : k ≠ 0) :
    finding_to_line m c (some k) sep =
      ((effectiveLines m).take k).mapIdx (fun i line => renderSourceLine m c i line) ++
        (if k = 1 then []
         else if ((effectiveLines m).length : Int) - (k : Int) > 0 then
           [pyCenter (trimmed_str (((effectiveLines m).length : Int) - (k : Int)))
             BREAK_LINE_WIDTH BREAK_LINE_CHAR]
         else if sep then [BREAK_LINE] else []) := by
  simp only [finding_to_line, if_neg hpath, if_neg hk, Option.some.injEq]

/-- C5: for a finding with assigned line content and a configured line limit
`k`, the line renderer yields at most `k` source lines (exactly
`min k totalLines` of them); when the available line count exceeds the limit
and the limit is not 1 it yields exactly `k` source lines followed by one
marker line, centered in the fixed display width with the fixed fill
character, reporting exactly `totalLines - k` hidden lines; with limit 1 the
marker and separator are suppressed entirely; and without truncation only the
optional fixed separator follows the source lines. -/
theorem line_renderer_truncation (m : RuleMatch) (c sep : Bool) (k : Nat)
    (hpath : m.path ≠ "") (hk : k ≠ 0) :
    (((effectiveLines m).take k).mapIdx (fun i line => renderSourceLine m c i line)).length
        = min k (effectiveLines m).length
    ∧ (((effectiveLines m).take k).mapIdx (fun i line => renderSourceLine m c i line)).length
        ≤ k
    ∧ (k < (effectiveLines m).length → k ≠ 1 →
        finding_to_line m c (some k) sep =
          ((effectiveLines m).take k).mapIdx (fun i line => renderSourceLine m c i line) ++
            [pyCenter (trimmed_str (((effectiveLines m).length : Int) - (k : Int)))
              BREAK_LINE_WIDTH BREAK_LINE_CHAR]
        ∧ ((effectiveLines m).take k).length = k)
    ∧ (k = 1 →
        finding_to_line m c (some k) sep =
          ((effectiveLines m).take k).mapIdx (fun i line => renderSourceLine m c i line))
    ∧ ((effectiveLines m).length ≤ k →
        finding_to_line m c (some k) sep =
          ((effectiveLines m).take k).mapIdx (fun i line => renderSourceLine m c i line) ++
            (if k = 1 then [] else if sep then [BREAK_LINE] else [])) := by
  refine ⟨by simp, by simp, ?_, ?_, ?_⟩
  · intro hlt hk1
    have hpos : ((effectiveLines m).length : Int) - (k : Int) > 0 := by
      have : (k : Int) < ((effectiveLines m).length : Int) := by exact_mod_cast hlt
      omega
    refine ⟨?_, ?_⟩
    · rw [finding_to_line_some m c sep k hpath hk, if_neg hk1, if_pos hpos]
    · simp [Nat.le_of_lt hlt]
  · intro hk1
    rw [finding_to_line_some m c sep k hpath hk, if_pos hk1, List.append_nil]
  · intro hle
    have hneg : ¬ (((effectiveLines m).length : Int) - (k : Int) > 0) := by
      have : ((effectiveLines m).length : Int) ≤ (k : Int) := by exact_mod_cast hle
      omega
    rw [finding_to_line_some m c sep k hpath hk]
    by_cases hk1 : k = 1
    · rw [if_pos hk1, if_pos hk1]
    · rw [if_neg hk1, if_neg hk1, if_neg hneg]

/-- Witness for C5: a three-line finding with limit 2 renders its first two
source lines followed by the centered marker reporting one hidden line. -/
theorem line_renderer_truncation_witness :
    finding_to_line sampleTruncMatch false (some 2) false =
      ((effectiveLines sampleTruncMatch).take 2).mapIdx
          (fun i line => renderSourceLine sampleTruncMatch false i line) ++
        [pyCenter (trimmed_str (((effectiveLines sampleTruncMatch).length : Int) - (2 : Int)))
          BREAK_LINE_WIDTH BREAK_LINE_CHAR]
    ∧ ((effectiveLines sampleTruncMatch).take 2).length = 2 :=
  (line_renderer_truncation sampleTruncMatch false false 2 (by decide) (by decide)).2.2.1
    (by decide) (by decide)

/-! ## Outcome disposition (`final_raise`) -/

/-- C7: a resolved cause is raised exactly when it is non-structured, or a
structured error at ERROR level, or a structured error at WARN level under
strict mode; what is raised is the cause itself; a WARN-level structured cause
without strict mode is turned into a logged hint and nothing is raised. -/
theorem final_raise_disposition (settings : OutputSettings) (ex : Option Exc)
    (stats : Option String) :
    ((final_raise settings ex stats).1 ≠ none ↔
      (∃ s, ex = some (Exc.other s)) ∨
        (∃ e, ex = some (Exc.semgrep e) ∧
          (e.level = Level.ERROR ∨ (e.level = Level.WARN ∧ settings.strict = true))))
    ∧ ((final_raise settings ex stats).1 ≠ none → (final_raise settings ex stats).1 = ex)
    ∧ (∀ e, ex = some (Exc.semgrep e) → e.level = Level.WARN → settings.strict = false →
        final_raise settings ex stats = (none, some (warnHint stats))) := by
  refine ⟨?_, ?_, ?_⟩
  · match ex with
    | none => simp [final_raise]
    | some (Exc.other s) => simp [final_raise]
    | some (Exc.semgrep e) =>
      match he : e.level, hs : settings.strict with
      | Level.ERROR, _ => simp [final_raise, he]
      | Level.WARN, true => simp [final_raise, he, hs]
      | Level.WARN, false => simp [final_raise, he, hs]
  · match ex with
    | none => simp [final_raise]
    | some (Exc.other s) => simp [final_raise]
    | some (Exc.semgrep e) =>
      match he : e.level, hs : settings.strict with
      | Level.ERROR, _ => simp [final_raise, he]
      | Level.WARN, true => simp [final_raise, he, hs]
      | Level.WARN, false => simp [final_raise, he, hs]
  · rintro e rfl he hs
    simp [final_raise, he, hs]

/-- Witness for C7: a WARN-level parse error with strict mode off is not
raised; the hint is logged instead. -/
theorem final_raise_disposition_witness :
    final_raise sampleTextSettings (some (Exc.semgrep sampleWarnError))
        (some "1 files could not be analyzed") =
      (none, some (warnHint (some "1 files could not be analyzed"))) :=
  (final_raise_disposition sampleTextSettings (some (Exc.semgrep sampleWarnError))
      (some "1 files could not be analyzed")).2.2 sampleWarnError rfl rfl rfl

/-- Witness for C10: with rule id `mine`, the annotation
`# nosem: mine, other` raises in strict mode although `mine` is listed. -/
theorem strict_nosem_raises_witness :
    (∃ msg, rule_match_nosem sampleStrictNosemMatch true = .error msg)
    ∧ rule_match_nosem sampleStrictNosemMatch true ≠ .ok true := by
  refine strict_nosem_raises sampleStrictNosemMatch "x == y  # nosem: mine, other" []
    " mine, other" rfl rfl ⟨"other", ?_, ?_⟩
  · decide
  · decide

/-! ## Finalize: outcome determination, empty report, delivery -/

/-- C1: at finalize time the outcome cause follows the priority order — a
previously recorded terminal cause wins; else, with findings present and
error-on-findings configured, the synthetic empty-message error carrying the
findings exit classification; else, with structured errors accumulated, the
most recently accumulated one paired with the "N files could not be analyzed"
summary; else no cause, and `close` raises nothing. -/
theorem outcome_priority (settings : OutputSettings) (st : OutputHandlerState)
    (tty : Bool) (version : String) :
    (∀ e, st.final_error = some e → determine_final settings st = (some e, none))
    ∧ (st.final_error = none → st.rule_matches ≠ [] → settings.error_on_findings = true →
        determine_final settings st = (some (Exc.semgrep findingsError), none))
    ∧ (st.final_error = none →
        (st.rule_matches = [] ∨ settings.error_on_findings = false) →
        ∀ e, st.semgrep_structured_errors.getLast? = some e →
        determine_final settings st =
          (some (Exc.semgrep e),
            some (toString st.semgrep_structured_errors.length ++
              " files could not be analyzed")))
    ∧ (st.final_error = none →
        (st.rule_matches = [] ∨ settings.error_on_findings = false) →
        st.semgrep_structured_errors = [] →
        determine_final settings st = (none, none)
        ∧ (close settings st tty version).raised = none) := by
  refine ⟨?_, ?_, ?_, ?_⟩
  · intro e he
    simp [determine_final, he]
  · intro h1 h2 h3
    simp [determine_final, h1, h2, h3]
  · intro h1 h2 e he
    have himp : ¬ st.rule_matches = [] → settings.error_on_findings = false := by
      rcases h2 with h | h
      · intro hc; exact absurd h hc
      · intro _; exact h
    simp only [determine_final, h1, he]
    rw [if_neg ?_]
    · intro hand
      rcases hand with ⟨ha, hb⟩
      rw [himp (by simpa using ha)] at hb
      exact Bool.false_ne_true hb
  · intro h1 h2 h3
    have himp : ¬ st.rule_matches = [] → settings.error_on_findings = false := by
      rcases h2 with h | h
      · intro hc; exact absurd h hc
      · intro _; exact h
    have hdf : determine_final settings st = (none, none) := by
      simp only [determine_final, h1, h3]
      rw [if_neg ?_]
      · simp
      · intro hand
        rcases hand with ⟨ha, hb⟩
        rw [himp (by simpa using ha)] at hb
        exact Bool.false_ne_true hb
    exact ⟨hdf, by simp [close, hdf, final_raise]⟩

/-- Witness for C1: with no recorded terminal cause, no findings, and two
accumulated structured errors, finalize resolves to the most recent error and
the two-file summary. -/
theorem outcome_priority_witness :
    determine_final sampleTextSettings sampleErrState =
      (some (Exc.semgrep sampleConfigError),
        some (toString sampleErrState.semgrep_structured_errors.length ++
          " files could not be analyzed")) :=
  (outcome_priority sampleTextSettings sampleErrState false "0.1").2.2.1 rfl
    (Or.inl rfl) sampleConfigError rfl

/-- C3: when nothing was ever accumulated (no findings, no structured errors,
no stats — the `has_output` flag never set — and no terminal cause recorded),
`close` invokes no renderer, prints nothing, logs nothing, saves nothing, and
raises nothing. -/
theorem empty_report_no_effect (settings : OutputSettings) (st : OutputHandlerState)
    (tty : Bool) (version : String) (h1 : st.has_output = false)
    (h2 : st.final_error = none) (h3 : st.rule_matches = [])
    (h4 : st.semgrep_structured_errors = []) :
    close settings st tty version = ⟨none, none, none, none, none, none⟩ := by
  have hdf : determine_final settings st = (none, none) := by
    simp [determine_final, h2, h3, h4]
  simp [close, h1, hdf, final_raise]

/-- Witness for C3: closing a freshly constructed handler has no effect. -/
theorem empty_report_no_effect_witness :
    close sampleTextSettings initState false "0.1" = ⟨none, none, none, none, none, none⟩ :=
  empty_report_no_effect sampleTextSettings initState false "0.1" rfl rfl rfl rfl

/-- Counterexample for C4: with a destination configured and an (empty) engine
run accumulated, `close` still prints the rendered JSON report to standard
output, in addition to saving it to the destination — stdout is not reserved
for the no-destination case. -/
theorem stdout_despite_destination_cex :
    sampleJsonDestSettings.output_destination = some "findings.json"
    ∧ (close sampleJsonDestSettings sampleStateOut true "0.1").printed
        = some "\x7b\"results\": [], \"errors\": []\x7d"
    ∧ (close sampleJsonDestSettings sampleStateOut true "0.1").saved
        = some ("findings.json", "\x7b\"results\": [], \"errors\": []\x7d") := by
  refine ⟨rfl, ?_, ?_⟩ <;> decide

/-- C4 as amended: when anything was accumulated and a (truthy) destination is
configured, the rendered report (built without color) is handed to the
delivery sink for that destination, and it is additionally printed to the
process's standard output stream whenever it is non-empty — not only when no
destination is configured. -/
theorem destination_persist_and_stdout (settings : OutputSettings)
    (st : OutputHandlerState) (tty : Bool) (version : String) (d : String)
    (h1 : st.has_output = true) (h2 : settings.output_destination = some d)
    (h3 : d ≠ "") :
    (close settings st tty version).saved =
      some (d, build_output settings st false settings.output_per_finding_max_lines_limit
        version)
    ∧ (close settings st tty version).printed =
        (if build_output settings st false settings.output_per_finding_max_lines_limit
            version ≠ "" then
          some (build_output settings st false settings.output_per_finding_max_lines_limit
            version)
        else none) := by
  constructor
  · simp [close, h1, h2, h3]
  · simp [close, h1, h2]

/-- Witness for C4 (amended): the concrete destination run both saves and
prints the non-empty JSON report. -/
theorem destination_persist_and_stdout_witness :
    (close sampleJsonDestSettings sampleStateOut true "0.1").saved =
      some ("findings.json",
        build_output sampleJsonDestSettings sampleStateOut false
          sampleJsonDestSettings.output_per_finding_max_lines_limit "0.1")
    ∧ (close sampleJsonDestSettings sampleStateOut true "0.1").printed =
        (if build_output sampleJsonDestSettings sampleStateOut false
            sampleJsonDestSettings.output_per_finding_max_lines_limit "0.1" ≠ "" then
          some (build_output sampleJsonDestSettings sampleStateOut false
            sampleJsonDestSettings.output_per_finding_max_lines_limit "0.1")
        else none) :=
  destination_persist_and_stdout sampleJsonDestSettings sampleStateOut true "0.1"
    "findings.json" rfl rfl (by decide)

/-! ## Error-deduplication lemmas -/

/-- `handle_semgrep_error` preserves the deduplication invariant and adds
exactly the ingested error to the accumulated members. -/
theorem handle_semgrep_error_spec (st : OutputHandlerState) (e : SemgrepError)
    (h : errorInv st) :
    errorInv (handle_semgrep_error st e)
    ∧ ∀ x, x ∈ (handle_semgrep_error st e).semgrep_structured_errors ↔
        x ∈ st.semgrep_structured_errors ∨ x = e := by
  obtain ⟨hset, hnd⟩ := h
  by_cases hmem : e ∈ st.error_set
  · have hmem' : e ∈ st.semgrep_structured_errors := hset ▸ hmem
    have heq : handle_semgrep_error st e = { st with has_output := true } := by
      simp [handle_semgrep_error, hmem]
    rw [heq]
    refine ⟨⟨hset, hnd⟩, ?_⟩
    intro x
    constructor
    · exact Or.inl
    · rintro (hx | rfl)
      · exact hx
      · exact hmem'
  · have hnotin : e ∉ st.semgrep_structured_errors := hset ▸ hmem
    have heq : handle_semgrep_error st e =
        { st with
          has_output := true
          semgrep_structured_errors := st.semgrep_structured_errors ++ [e]
          error_set := st.error_set ++ [e] } := by
      simp [handle_semgrep_error, hmem]
    rw [heq]
    refine ⟨⟨by simp [hset], by simp [List.nodup_append, hnd, hnotin]⟩, ?_⟩
    intro x
    simp

/-- The ingestion loop of `handle_semgrep_errors` preserves the
deduplication invariant and adds exactly the batch's errors. -/
theorem handle_semgrep_errors_go_spec :
    ∀ (es : List SemgrepError) (st : OutputHandlerState) (flag : Bool), errorInv st →
    errorInv (handle_semgrep_errors_go st flag es).1
    ∧ ∀ x, x ∈ (handle_semgrep_errors_go st flag es).1.semgrep_structured_errors ↔
        x ∈ st.semgrep_structured_errors ∨ x ∈ es := by
  intro es
  induction es with
  | nil =>
    intro st flag h
    exact ⟨h, by simp [handle_semgrep_errors_go]⟩
  | cons e rest ih =>
    intro st flag h
    obtain ⟨hset, hnd⟩ := h
    by_cases hc : e.isTimeout = true ∧ e ∉ st.error_set
    · have hnotin : e ∉ st.semgrep_structured_errors := hset ▸ hc.2
      have hinv : errorInv
          { st with
            semgrep_structured_errors := st.semgrep_structured_errors ++ [e]
            error_set := st.error_set ++ [e] } := by
        refine ⟨by simp [hset], ?_⟩
        simp [List.nodup_append, hnd, hnotin]
      have step := ih _ true hinv
      refine ⟨?_, ?_⟩
      · simpa [handle_semgrep_errors_go, hc] using step.1
      · intro x
        have hx := step.2 x
        simp only [handle_semgrep_errors_go, if_pos hc]
        rw [hx]
        simp only [List.mem_append, List.mem_singleton, List.mem_cons]
        tauto
    · have step1 := handle_semgrep_error_spec st e ⟨hset, hnd⟩
      have step := ih (handle_semgrep_error st e) flag step1.1
      refine ⟨?_, ?_⟩
      · simpa [handle_semgrep_errors_go, hc] using step.1
      · intro x
        have hx := step.2 x
        simp only [handle_semgrep_errors_go, if_neg hc]
        rw [hx, step1.2 x]
        simp only [List.mem_cons]
        tauto

/-- `handle_semgrep_errors` preserves the deduplication invariant and adds
exactly the batch's errors (the trailing text-mode `has_output` update touches
no error field). -/
theorem handle_semgrep_errors_spec (settings : OutputSettings)
    (st : OutputHandlerState) (es : List SemgrepError) (h : errorInv st) :
    errorInv (handle_semgrep_errors settings st es)
    ∧ ∀ x, x ∈ (handle_semgrep_errors settings st es).semgrep_structured_errors ↔
        x ∈ st.semgrep_structured_errors ∨ x ∈ es := by
  have step := handle_semgrep_errors_go_spec es st false h
  unfold handle_semgrep_errors
  by_cases hc : (handle_semgrep_errors_go st false es).2 = true
      ∧ settings.output_format = OutputFormat.TEXT
  · rw [if_pos hc]
    exact ⟨⟨step.1.1, step.1.2⟩, step.2⟩
  · rw [if_neg hc]
    exact step

/-- Folding any sequence of ingestion batches preserves the deduplication
invariant and accumulates exactly the incoming errors. -/
theorem error_accumulation_foldl (settings : OutputSettings) :
    ∀ (batches : List (List SemgrepError)) (st : OutputHandlerState), errorInv st →
    errorInv (batches.foldl (handle_semgrep_errors settings) st)
    ∧ ∀ e, e ∈ (batches.foldl (handle_semgrep_errors settings) st).semgrep_structured_errors
        ↔ e ∈ st.semgrep_structured_errors ∨ ∃ b ∈ batches, e ∈ b := by
  intro batches
  induction batches with
  | nil =>
    intro st h
    exact ⟨h, by simp⟩
  | cons b rest ih =>
    intro st h
    have step := handle_semgrep_errors_spec settings st b h
    have tail := ih (handle_semgrep_errors settings st b) step.1
    refine ⟨by simpa using tail.1, ?_⟩
    intro e
    have he := tail.2 e
    simp only [List.foldl_cons] at he ⊢
    rw [he, step.2 e]
    simp only [List.mem_cons]
    constructor
    · rintro ((hx | hx) | ⟨c, hc, hec⟩)
      · exact Or.inl hx
      · exact Or.inr ⟨b, Or.inl rfl, hx⟩
      · exact Or.inr ⟨c, Or.inr hc, hec⟩
    · rintro (hx | ⟨c, (rfl | hc), hec⟩)
      · exact Or.inl (Or.inl hx)
      · exact Or.inl (Or.inr hec)
      · exact Or.inr ⟨c, hc, hec⟩

/-- C6: after any sequence of ingestion batches — duplicates, timeout-class or
otherwise — the accumulated structured-error collection holds each distinct
incoming error exactly once: it is duplicate-free (no two value-equal errors
coexist, every error counted at most once) and its members are exactly the
errors that arrived. -/
theorem error_dedup (settings : OutputSettings) (batches : List (List SemgrepError)) :
    ((batches.foldl (handle_semgrep_errors settings) initState).semgrep_structured_errors).Nodup
    ∧ (∀ e,
        e ∈ (batches.foldl (handle_semgrep_errors settings) initState).semgrep_structured_errors
          ↔ ∃ b ∈ batches, e ∈ b)
    ∧ ∀ e,
        ((batches.foldl (handle_semgrep_errors settings) initState).semgrep_structured_errors).count e
          ≤ 1 := by
  have h := error_accumulation_foldl settings batches initState ⟨rfl, List.nodup_nil⟩
  refine ⟨h.1.2, ?_, ?_⟩
  · intro e
    have := h.2 e
    simpa [initState] using this
  · intro e
    exact List.nodup_iff_count_le_one.mp h.1.2 e

/-! ## Text-format header suppression -/

/-- One step of `normalGo`: the head entry's rule/message header is absent
exactly when the emission condition fails. -/
theorem normalGo_head_ruleHeader (color : Bool) (limit : Option Nat)
    (lf lm : Option String) (m : RuleMatch) (rest : List RuleMatch) :
    ∃ e es, normalGo color limit lf lm (m :: rest) = e :: es ∧
      es = normalGo color limit (some m.path) (some m.message) rest ∧
      (e.ruleHeader = none ↔
        ¬ (m.id ≠ "" ∧ m.id ≠ CLI_RULE_ID ∧
          (if lf ≠ some m.path then none else lm) ≠ some m.message)) := by
  refine ⟨_, _, rfl, rfl, ?_⟩
  by_cases hc : m.id ≠ "" ∧ m.id ≠ CLI_RULE_ID ∧
      (if lf ≠ some m.path then none else lm) ≠ some m.message
  · simp [normalGo, hc]
  · simp [normalGo, hc]

/-- C8 as amended: for consecutive findings within the same path, the text
renderer suppresses the second finding's rule/message header exactly when its
rule id is empty, or its rule id is the synthetic CLI-pattern id, or its
message is identical to the previous finding's message — the rule id is not
otherwise compared. -/
theorem header_suppressed_iff (color : Bool) (limit : Option Nat) :
    ∀ (i : Nat) (l : List RuleMatch) (lf lm : Option String) (a b : RuleMatch),
      l.get? i = some a → l.get? (i + 1) = some b → b.path = a.path →
      ∃ e, (normalGo color limit lf lm l).get? (i + 1) = some e ∧
        (e.ruleHeader = none ↔
          (b.id = "" ∨ b.id = CLI_RULE_ID ∨ b.message = a.message)) := by
  intro i
  induction i with
  | zero =>
    intro l lf lm a b ha hb hp
    cases l with
    | nil => simp at ha
    | cons x t =>
      cases t with
      | nil => simp at hb
      | cons y t' =>
        simp only [List.get?_cons_zero, Option.some.injEq] at ha
        simp only [List.get?_cons_succ, List.get?_cons_zero, Option.some.injEq] at hb
        subst ha
        subst hb
        obtain ⟨e2, es2, heq2, hes2, hiff2⟩ :=
          normalGo_head_ruleHeader color limit (some x.path) (some x.message) y t'
        refine ⟨e2, ?_, ?_⟩
        · obtain ⟨e1, es1, heq1, hes1, _⟩ :=
            normalGo_head_ruleHeader color limit lf lm x (y :: t')
          rw [heq1]
          simp only [List.get?_cons_succ]
          rw [hes1, heq2]
          rfl
        · rw [hiff2]
          have hnf : ¬ ((some x.path : Option String) ≠ some y.path) := by simp [hp]
          rw [if_neg hnf]
          simp only [ne_eq, Option.some.injEq, not_and, not_not]
          constructor
          · intro h
            by_cases h1 : y.id = ""
            · exact Or.inl h1
            · by_cases h2 : y.id = CLI_RULE_ID
              · exact Or.inr (Or.inl h2)
              · exact Or.inr (Or.inr (h h1 h2).symm)
          · rintro (h1 | h2 | h3)
            · intro hc; exact absurd h1 hc
            · intro _ hc; exact absurd h2 hc
            · intro _ _; exact h3.symm
  | succ n ih =>
    intro l lf lm a b ha hb hp
    cases l with
    | nil => simp at ha
    | cons x t =>
      simp only [List.get?_cons_succ] at ha hb
      obtain ⟨e, he, hiff⟩ := ih t (some x.path) (some x.message) a b ha hb hp
      obtain ⟨e1, es1, heq1, hes1, _⟩ := normalGo_head_ruleHeader color limit lf lm x t
      refine ⟨e, ?_, hiff⟩
      rw [heq1]
      simp only [List.get?_cons_succ]
      rw [hes1]
      exact he

/-- Witness for C8 (amended): applied to two concrete same-path findings. -/
theorem header_suppressed_iff_witness :
    ∃ e, (normalGo false none none none
        [sampleHeaderMatchA, sampleHeaderMatchB]).get? 1 = some e ∧
      (e.ruleHeader = none ↔
        (sampleHeaderMatchB.id = "" ∨ sampleHeaderMatchB.id = CLI_RULE_ID ∨
          sampleHeaderMatchB.message = sampleHeaderMatchA.message)) :=
  header_suppressed_iff false none 0 [sampleHeaderMatchA, sampleHeaderMatchB] none none
    sampleHeaderMatchA sampleHeaderMatchB rfl rfl rfl

/-- Counterexample for C8 as stated: two consecutive same-path findings with
different rule ids but identical messages — the second finding's rule/message
header is suppressed although its rule id is not identical to the first's
(while the first finding does get a header). -/
theorem header_suppressed_cex :
    sampleHeaderMatchB.path = sampleHeaderMatchA.path
    ∧ sampleHeaderMatchB.id ≠ sampleHeaderMatchA.id
    ∧ sampleHeaderMatchB.message = sampleHeaderMatchA.message
    ∧ ((normalGo false none none none
          [sampleHeaderMatchA, sampleHeaderMatchB]).get? 1).map NormalEntry.ruleHeader
        = some none
    ∧ ((normalGo false none none none
          [sampleHeaderMatchA, sampleHeaderMatchB]).get? 0).map NormalEntry.ruleHeader
        ≠ some none := by
  refine ⟨rfl, by decide, rfl, by decide, by decide⟩

/-! ## Renderer purity and idempotence -/

/-- C9: rendering reads the accumulated state and returns it untouched —
invoking the renderer a second time on the state the first invocation leaves
behind yields a byte-identical output string, and none of the accumulated
components (findings, errors, rules, stats line, match-time matrix) change. -/
theorem render_pure_idempotent (settings : OutputSettings) (st : OutputHandlerState)
    (c : Bool) (l : Option Nat) (version : String) :
    (build_output_st settings st c l version).2 = st
    ∧ (build_output_st settings ((build_output_st settings st c l version).2) c l
        version).1 = (build_output_st settings st c l version).1
    ∧ (build_output_st settings st c l version).2.rule_matches = st.rule_matches
    ∧ (build_output_st settings st c l version).2.semgrep_structured_errors
        = st.semgrep_structured_errors
    ∧ (build_output_st settings st c l version).2.rules = st.rules
    ∧ (build_output_st settings st c l version).2.stats_line = st.stats_line
    ∧ (build_output_st settings st c l version).2.match_time_matrix
        = st.match_time_matrix :=
  ⟨rfl, rfl, rfl, rfl, rfl, rfl, rfl⟩

end Semgrep
